import Mathlib

/-!
Verification of the change-detection and notification-dispatch subsystem of
the camply-checker-cdk repository.

The repository ships the CDK infrastructure (lib/stacks/camply-stack.ts,
lib/constructs/camply-lambda.ts) together with design documents
(.kiro/specs/camply-notification-improvements/design.md and requirements.md)
that fix the behaviour of the Python Lambda components `ResultComparator`,
`S3ResultStore` and `MultiEmailNotifier`.  The Python sources themselves
(lambda/index.py and its helpers) are not part of the source tree examined
here, so those components are modelled from the specification documents,
while the S3 bucket configuration is embedded directly from
lib/stacks/camply-stack.ts.
-/

/-! ## Byte-wise lexicographic order on strings

The stored dates, site identifiers and site names are compared with the
ordinary lexicographic string order.  The comparison is defined directly on
the character lists so that every use of it evaluates by computation.
-/

/-- Lexicographic less-or-equal test on character lists, comparing the
numeric code points. -/
def leChars : List Char → List Char → Bool
  | [], _ => true
  | _ :: _, [] => false
  | a :: as, b :: bs =>
    if a.toNat = b.toNat then leChars as bs
    else decide (a.toNat < b.toNat)

/-- Lexicographic less-or-equal test on strings. -/
def strLe (a b : String) : Bool := leChars a.data b.data

/-- The propositional form of `strLe`, used as the sorting relation. -/
def strLeProp (a b : String) : Prop := strLe a b = true

instance : DecidableRel strLeProp := fun a b => instDecidableEqBool _ _

lemma char_toNat_inj {a b : Char} (h : a.toNat = b.toNat) : a = b :=
  Char.ext (UInt32.ext h)

lemma leChars_trans : ∀ as bs cs, leChars as bs = true → leChars bs cs = true →
    leChars as cs = true := by
  intro as
  induction as with
  | nil => intro bs cs _ _; rfl
  | cons a as ih =>
    intro bs cs h1 h2
    cases bs with
    | nil => simp [leChars] at h1
    | cons b bs =>
      cases cs with
      | nil => simp [leChars] at h2
      | cons c cs =>
        simp only [leChars] at h1 h2 ⊢
        by_cases hab : a.toNat = b.toNat
        · rw [if_pos hab] at h1
          by_cases hbc : b.toNat = c.toNat
          · rw [if_pos hbc] at h2
            rw [if_pos (hab.trans hbc)]
            exact ih bs cs h1 h2
          · rw [if_neg hbc] at h2
            have h2h : b.toNat < c.toNat := of_decide_eq_true h2
            have hac : a.toNat < c.toNat := by omega
            rw [if_neg (Nat.ne_of_lt hac)]
            exact decide_eq_true hac
        · rw [if_neg hab] at h1
          have h1h : a.toNat < b.toNat := of_decide_eq_true h1
          by_cases hbc : b.toNat = c.toNat
          · have hac : a.toNat < c.toNat := by omega
            rw [if_neg (Nat.ne_of_lt hac)]
            exact decide_eq_true hac
          · rw [if_neg hbc] at h2
            have h2h : b.toNat < c.toNat := of_decide_eq_true h2
            have hac : a.toNat < c.toNat := by omega
            rw [if_neg (Nat.ne_of_lt hac)]
            exact decide_eq_true hac

lemma leChars_total : ∀ as bs, leChars as bs = true ∨ leChars bs as = true := by
  intro as
  induction as with
  | nil => intro bs; left; rfl
  | cons a as ih =>
    intro bs
    cases bs with
    | nil => right; rfl
    | cons b bs =>
      simp only [leChars]
      by_cases hab : a.toNat = b.toNat
      · rw [if_pos hab, if_pos hab.symm]
        exact ih bs
      · have hba : b.toNat ≠ a.toNat := fun e => hab e.symm
        rw [if_neg hab, if_neg hba]
        rcases Nat.lt_or_ge a.toNat b.toNat with h | h
        · left; exact decide_eq_true h
        · right
          have hlt : b.toNat < a.toNat := by omega
          exact decide_eq_true hlt

lemma leChars_antisymm : ∀ as bs, leChars as bs = true → leChars bs as = true →
    as = bs := by
  intro as
  induction as with
  | nil =>
    intro bs h1 h2
    cases bs with
    | nil => rfl
    | cons b bs => simp [leChars] at h2
  | cons a as ih =>
    intro bs h1 h2
    cases bs with
    | nil => simp [leChars] at h1
    | cons b bs =>
      simp only [leChars] at h1 h2
      by_cases hab : a.toNat = b.toNat
      · rw [if_pos hab] at h1
        rw [if_pos hab.symm] at h2
        rw [char_toNat_inj hab, ih bs h1 h2]
      · have hba : b.toNat ≠ a.toNat := fun e => hab e.symm
        rw [if_neg hab] at h1
        rw [if_neg hba] at h2
        have h1h := of_decide_eq_true h1
        have h2h := of_decide_eq_true h2
        omega

instance : IsTrans String strLeProp :=
  ⟨fun a b c => leChars_trans a.data b.data c.data⟩

instance : IsTotal String strLeProp :=
  ⟨fun a b => leChars_total a.data b.data⟩

instance : IsAntisymm String strLeProp :=
  ⟨fun a b h1 h2 => String.ext (leChars_antisymm a.data b.data h1 h2)⟩

/-- Sorting a list of strings into lexicographic order; the model of the
`sorted(...)` calls performed during result normalization. -/
def sortStrings (l : List String) : List String := List.insertionSort strLeProp l

lemma sortStrings_eq_of_perm {l₁ l₂ : List String} (h : l₁.Perm l₂) :
    sortStrings l₁ = sortStrings l₂ :=
  List.eq_of_perm_of_sorted
    ((List.perm_insertionSort _ _).trans (h.trans (List.perm_insertionSort _ _).symm))
    (List.sorted_insertionSort _ _) (List.sorted_insertionSort _ _)

lemma sortStrings_idem (l : List String) : sortStrings (sortStrings l) = sortStrings l :=
  List.Sorted.insertionSort_eq (List.sorted_insertionSort _ _)

/-! ## Data model

Shapes follow the Search Result Storage Format of design.md: a stored entry
records the campground, the search parameters, the list of available sites
with their dates, and a timestamp used only for debugging.
-/

/-- Search parameters recorded with an observation
(design.md, Search Result Storage Format). -/
structure SearchParameters where
  start_date : String
  end_date : String
  provider : String
deriving DecidableEq, Repr

/-- One available-site record: identifier, display name and the set of
available dates (design.md, Search Result Storage Format). -/
structure SiteRecord where
  site_id : String
  site_name : String
  dates : List String
deriving DecidableEq, Repr

/-- An observation of one monitored campground at one point in time.
The `timestamp` field is operational metadata only. -/
structure Observation where
  campground_id : String
  campground_name : String
  timestamp : String
  search_parameters : SearchParameters
  available_sites : List SiteRecord
  total_available_nights : Nat
deriving DecidableEq, Repr

/-- The persisted unit: entity identifier, fingerprint of the normalized
observation, the full observation and a creation timestamp. -/
structure CacheEntry where
  entity_id : String
  fingerprint : String
  observation : Observation
  created_at : String
deriving DecidableEq, Repr

/-! ## ResultComparator -/

/-- Modelled from the spec: `ResultComparator.normalize_results` of the
absent Python module sorts the set of available dates of one site record
into a canonical order (spec section 4.1 and design.md normalization). -/
def canonSite (s : SiteRecord) : SiteRecord :=
  { s with dates := sortStrings s.dates }

/-- Modelled from the spec: the canonical serialization of one site record
used while normalizing, with the dates in sorted order. -/
def encodeSite (s : SiteRecord) : String :=
  s.site_id ++ "|" ++ s.site_name ++ "|" ++ String.intercalate "," (sortStrings s.dates)

/-- Modelled from the spec: `ResultComparator.normalize_results` of the
absent Python module projects the site records to a deterministic
order-independent canonical form, with site records and per-site dates
sorted. -/
def normalize_results (results : List SiteRecord) : List String :=
  sortStrings (results.map encodeSite)

/-- Modelled from the spec: the `result_hash` of design.md, a digest of the
normalized results.  The cryptographic digest of the absent Python module is
modelled collision-freely by the canonical serialization itself; the
timestamp and the other metadata fields of the observation do not
participate. -/
def result_hash (obs : Observation) : String :=
  String.intercalate ";" (normalize_results obs.available_sites)

/-- Modelled from the spec: `ResultComparator.hasChanged` of the absent
Python module.  An absent previous entry counts as changed (fail-open);
otherwise the fingerprints are compared. -/
def hasChanged (current : Observation) (previous : Option CacheEntry) : Bool :=
  match previous with
  | none => true
  | some entry => result_hash current != entry.fingerprint

/-! ## S3ResultStore -/

/-- Modelled from the spec: `S3ResultStore.generate_key` of the absent
Python module derives the storage key deterministically from the entity
identifier, as `results/<entity_id>.json` (spec section 6). -/
def generate_key (campground_id : String) : String :=
  "results/" ++ campground_id ++ ".json"

/-- Modelled from the spec: `S3ResultStore.store_results` of the absent
Python module persists the entity identifier, the fingerprint of the
normalized observation, the full observation and a creation timestamp as
one cache entry (spec section 3). -/
def store_results (campground_id : String) (obs : Observation)
    (created_at : String) : CacheEntry :=
  { entity_id := campground_id
    fingerprint := result_hash obs
    observation := obs
    created_at := created_at }

/-- The possible outcomes of the underlying S3 GetObject call: a raw body,
a missing key, or a connectivity or permission failure. -/
inductive S3GetResult where
  | ok (body : String)
  | noSuchKey
  | connectionError
  | permissionError
deriving DecidableEq, Repr

/-- Splitting a character list at a separator character; the groups between
separators, in order. -/
def splitOnChar (sep : Char) : List Char → List (List Char)
  | [] => [[]]
  | c :: cs =>
    match splitOnChar sep cs with
    | [] => [[]]
    | g :: gs => if c = sep then [] :: g :: gs else (c :: g) :: gs

/-- Reading a decimal numeral from a character list, accumulator form. -/
def natFromCharsAux : List Char → Nat → Option Nat
  | [], acc => some acc
  | c :: cs, acc =>
    if 48 ≤ c.toNat ∧ c.toNat ≤ 57 then
      natFromCharsAux cs (acc * 10 + (c.toNat - 48))
    else none

/-- Reading a decimal numeral from a character list; empty input fails. -/
def natFromChars : List Char → Option Nat
  | [] => none
  | c :: cs => natFromCharsAux (c :: cs) 0

/-- Modelled from the spec: deserialization of one stored site record of
the absent Python module; three fields separated by a bar, the dates
separated by commas. -/
def parseSite (l : List Char) : Option SiteRecord :=
  match splitOnChar '|' l with
  | [sid, sname, ds] =>
    some { site_id := String.mk sid
           site_name := String.mk sname
           dates := if ds = [] then [] else (splitOnChar ',' ds).map String.mk }
  | _ => none

/-- Modelled from the spec: deserialization of the stored site list of the
absent Python module; site records separated by semicolons. -/
def parseSites (l : List Char) : Option (List SiteRecord) :=
  if l = [] then some [] else (splitOnChar ';' l).mapM parseSite

/-- Modelled from the spec: deserialization of a stored cache entry of the
absent Python module.  A body that does not carry exactly the expected
fields, a malformed numeral or a malformed site list fails the parse. -/
def parseCacheEntry (body : String) : Option CacheEntry :=
  match splitOnChar '\n' body.data with
  | [eid, fp, created, cgid, cgname, ts, sd, ed, prov, nightsStr, sitesStr] =>
    match natFromChars nightsStr, parseSites sitesStr with
    | some nights, some sites =>
      some { entity_id := String.mk eid
             fingerprint := String.mk fp
             observation :=
               { campground_id := String.mk cgid
                 campground_name := String.mk cgname
                 timestamp := String.mk ts
                 search_parameters :=
                   { start_date := String.mk sd
                     end_date := String.mk ed
                     provider := String.mk prov }
                 available_sites := sites
                 total_available_nights := nights }
             created_at := String.mk created }
    | _, _ => none
  | _ => none

/-- Modelled from the spec: `S3ResultStore.retrieve_results` of the absent
Python module.  A missing key, a connectivity or permission failure, or a
body that fails to deserialize all resolve to `none` (absent); no error is
ever propagated to the caller (spec section 4.2, design.md S3 error
handling). -/
def retrieve_results (resp : S3GetResult) : Option CacheEntry :=
  match resp with
  | S3GetResult.ok body => parseCacheEntry body
  | S3GetResult.noSuchKey => none
  | S3GetResult.connectionError => none
  | S3GetResult.permissionError => none

/-! ## NotificationDispatcher -/

/-- Per-recipient delivery outcome: the recipient, a success flag, and the
error detail of a failed delivery. -/
structure DeliveryOutcome where
  recipient : String
  success : Bool
  errorDetail : Option String
deriving DecidableEq, Repr

/-- Overall status of one dispatch.  The constructor `partialDelivery`
models the status named partial in the spec. -/
inductive DispatchStatus where
  | all_succeeded
  | partialDelivery
  | all_failed
deriving DecidableEq, Repr

/-- Aggregate of all delivery outcomes of one send call. -/
structure DispatchSummary where
  outcomes : List DeliveryOutcome
  success_count : Nat
  failure_count : Nat
  status : DispatchStatus
deriving DecidableEq, Repr

/-- The configuration error class of spec section 7; raised by `send` on an
empty recipient set. -/
inductive ConfigurationError where
  | emptyRecipientSet
deriving DecidableEq, Repr

/-- Modelled from the spec: one best-effort delivery attempt of the absent
Python module, producing exactly one outcome.  The transport is abstracted
as a function returning the error detail of a failure or `none` on
success. -/
def outcomeFor (deliver : String → Option String) (r : String) : DeliveryOutcome :=
  match deliver r with
  | none => { recipient := r, success := true, errorDetail := none }
  | some e => { recipient := r, success := false, errorDetail := some e }

/-- Modelled from the spec: aggregation of the per-recipient outcomes into
the dispatch summary with the overall status of spec section 4.3. -/
def summarize (outcomes : List DeliveryOutcome) : DispatchSummary :=
  let s := (outcomes.filter (fun o => o.success)).length
  let f := (outcomes.filter (fun o => !o.success)).length
  { outcomes := outcomes
    success_count := s
    failure_count := f
    status :=
      if f = 0 then DispatchStatus.all_succeeded
      else if s = 0 then DispatchStatus.all_failed
      else DispatchStatus.partialDelivery }

/-- Modelled from the spec: `MultiEmailNotifier.send_notifications` of the
absent Python module.  An empty recipient set fails fast with a
configuration error; otherwise every recipient is attempted independently
and the outcomes are aggregated. -/
def send_notifications (addresses : List String)
    (deliver : String → Option String) :
    Except ConfigurationError DispatchSummary :=
  if addresses.isEmpty then Except.error ConfigurationError.emptyRecipientSet
  else Except.ok (summarize (addresses.map (outcomeFor deliver)))

/-! ## Orchestrator-facing evaluate -/

/-- Result of one evaluation: whether a notification was attempted, and the
dispatch summary when one was. -/
structure EvalResult where
  notified : Bool
  summary : Option DispatchSummary
deriving DecidableEq, Repr

/-- Modelled from the spec: the orchestrator-facing `evaluate` of spec
section 6, applied to the already-retrieved previous entry.  When the
comparator reports a change the dispatcher is invoked; otherwise the run is
skipped with no delivery outcome. -/
def evaluate (previous : Option CacheEntry) (current : Observation)
    (addresses : List String) (deliver : String → Option String) : EvalResult :=
  if hasChanged current previous then
    match send_notifications addresses deliver with
    | Except.error _ => { notified := false, summary := none }
    | Except.ok s => { notified := true, summary := some s }
  else { notified := false, summary := none }

/-! ## Infrastructure embedded from lib/stacks/camply-stack.ts

The stack file holds two versions of `CamplyStack`.  Both create the cache
bucket with a one-day lifecycle expiration; the second additionally makes
the bucket publicly readable and attaches an any-principal GetObject policy
for dashboard.html.
-/

/-- One S3 lifecycle rule, reduced to its expiration in days. -/
structure LifecycleRule where
  expirationDays : Nat
deriving DecidableEq, Repr

/-- The four flags of an S3 block-public-access configuration. -/
structure BlockPublicAccessConfig where
  blockPublicAcls : Bool
  blockPublicPolicy : Bool
  ignorePublicAcls : Bool
  restrictPublicBuckets : Bool
deriving DecidableEq, Repr

/-- The bucket properties relevant to the claims; `blockPublicAccess` is
`none` when the stack leaves the CDK default in place. -/
structure BucketProps where
  removalPolicyDestroy : Bool
  autoDeleteObjects : Bool
  publicReadAccess : Bool
  blockPublicAccess : Option BlockPublicAccessConfig
  lifecycleRules : List LifecycleRule
deriving DecidableEq, Repr

/-- One bucket policy statement, reduced to the fields the claims need:
effect, whether the principal is any principal, the actions, and the object
key patterns of the resources. -/
structure PolicyStatement where
  allowEffect : Bool
  anyPrincipal : Bool
  actions : List String
  resourceKeyPatterns : List String
deriving DecidableEq, Repr

/-- The CacheBucket of the first `CamplyStack` version
(lib/stacks/camply-stack.ts lines 17 to 25): destroy on removal, auto
delete, a single lifecycle rule expiring objects after one day, and no
explicit public access settings. -/
def camplyCacheBucket : BucketProps :=
  { removalPolicyDestroy := true
    autoDeleteObjects := true
    publicReadAccess := false
    blockPublicAccess := none
    lifecycleRules := [{ expirationDays := 1 }] }

/-- The CacheBucket of the dashboard `CamplyStack` version
(lib/stacks/camply-stack.ts lines 59 to 74): public read access enabled and
all four block-public-access flags disabled, with the same one-day
lifecycle rule. -/
def camplyDashboardCacheBucket : BucketProps :=
  { removalPolicyDestroy := true
    autoDeleteObjects := true
    publicReadAccess := true
    blockPublicAccess := some
      { blockPublicAcls := false
        blockPublicPolicy := false
        ignorePublicAcls := false
        restrictPublicBuckets := false }
    lifecycleRules := [{ expirationDays := 1 }] }

/-- The bucket policy of the dashboard stack version: the statement CDK
synthesizes for `publicReadAccess: true` (any principal may GetObject on
every object key) followed by the explicit `addToResourcePolicy` statement
for dashboard.html (lib/stacks/camply-stack.ts lines 77 to 82). -/
def dashboardBucketPolicy : List PolicyStatement :=
  [ { allowEffect := true
      anyPrincipal := true
      actions := ["s3:GetObject"]
      resourceKeyPatterns := ["*"] },
    { allowEffect := true
      anyPrincipal := true
      actions := ["s3:GetObject"]
      resourceKeyPatterns := ["dashboard.html"] } ]

/-- Whether a resource key pattern covers an object key; the star pattern
covers every key. -/
def keyMatches (pat key : String) : Bool :=
  pat == "*" || pat == key

/-- Whether an object of the bucket is readable by any principal: the
bucket policy must not be blocked and some allow statement with any
principal must grant GetObject on the key. -/
def objectWorldReadable (props : BucketProps) (policies : List PolicyStatement)
    (key : String) : Bool :=
  (match props.blockPublicAccess with
   | some cfg => !(cfg.blockPublicPolicy || cfg.restrictPublicBuckets)
   | none => true) &&
  policies.any (fun p =>
    p.allowEffect && p.anyPrincipal && p.actions.contains "s3:GetObject" &&
    p.resourceKeyPatterns.any (fun pat => keyMatches pat key))

/-- S3 lifecycle semantics for an expiration rule: an object created on day
`createdDay` is still present on day `nowDay` exactly when every rule's
expiration lies in the future. -/
def objectLive (props : BucketProps) (createdDay nowDay : Nat) : Bool :=
  props.lifecycleRules.all (fun r => nowDay < createdDay + r.expirationDays)

/-- Retrieval of a stored entry through a bucket with lifecycle rules: the
entry is returned while the object is live and is absent afterwards. -/
def retrieveAt (props : BucketProps) (entry : CacheEntry)
    (createdDay nowDay : Nat) : Option CacheEntry :=
  if objectLive props createdDay nowDay then some entry else none

/-! ## Concrete inputs

The scenario of spec section 8: site 123 with two dates, observed again
with the dates reversed and a refreshed timestamp.
-/

/-- The first observation of the spec section 8 scenario. -/
def obsScenario1 : Observation :=
  { campground_id := "766"
    campground_name := "Steep Ravine"
    timestamp := "2025-01-08T10:30:00Z"
    search_parameters :=
      { start_date := "2025-01-08", end_date := "2025-02-07"
        provider := "ReserveCalifornia" }
    available_sites :=
      [{ site_id := "123", site_name := "Site A"
         dates := ["2025-01-15", "2025-01-16"] }]
    total_available_nights := 2 }

/-- The second observation of the spec section 8 scenario: the same dates in
reversed order under a refreshed timestamp. -/
def obsScenario2 : Observation :=
  { campground_id := "766"
    campground_name := "Steep Ravine"
    timestamp := "2025-01-08T11:00:00Z"
    search_parameters :=
      { start_date := "2025-01-08", end_date := "2025-02-07"
        provider := "ReserveCalifornia" }
    available_sites :=
      [{ site_id := "123", site_name := "Site A"
         dates := ["2025-01-16", "2025-01-15"] }]
    total_available_nights := 2 }

/-- A transport on which every delivery succeeds. -/
def deliverAllOk : String → Option String := fun _ => none

/-- A transport on which exactly the second of three fixed recipients
fails. -/
def deliverSecondFails : String → Option String := fun r =>
  if r == "second@example.com" then some "smtp rejected" else none

/-! ## Helper lemmas -/

lemma outcomeFor_recipient (deliver : String → Option String) (r : String) :
    (outcomeFor deliver r).recipient = r := by
  unfold outcomeFor
  cases deliver r <;> rfl

lemma send_notifications_ok (addresses : List String)
    (deliver : String → Option String) (h : addresses ≠ []) :
    send_notifications addresses deliver =
      Except.ok (summarize (addresses.map (outcomeFor deliver))) := by
  unfold send_notifications
  rw [if_neg]
  simp [h]

lemma summarize_outcomes (l : List DeliveryOutcome) :
    (summarize l).outcomes = l := rfl

lemma summarize_status (l : List DeliveryOutcome) :
    (summarize l).status =
      if (l.filter (fun o => !o.success)).length = 0 then DispatchStatus.all_succeeded
      else if (l.filter (fun o => o.success)).length = 0 then DispatchStatus.all_failed
      else DispatchStatus.partialDelivery := rfl

lemma filter_length_eq_zero_iff {α : Type} (p : α → Bool) (l : List α) :
    (l.filter p).length = 0 ↔ ∀ a ∈ l, p a = false := by
  rw [List.length_eq_zero, List.filter_eq_nil_iff]
  simp

/-! ## Claims -/

/-- C1: the key derivation of the result store is a deterministic function
of the entity identifier, and it is injective: two entity identifiers share
a storage key exactly when they are equal, so cache entries of different
entities never overwrite each other. -/
theorem camply_c1 : ∀ a b : String, generate_key a = generate_key b ↔ a = b := by
  intro a b
  constructor
  · intro h
    have hd := congrArg String.data h
    simp only [generate_key, String.data_append] at hd
    simp at hd
    exact String.ext hd
  · intro h
    rw [h]

/-- C2: the comparator reports a change whenever the previous entry is
absent, and an evaluation whose retrieval came back absent notifies
whenever the recipient set is non-empty. -/
theorem camply_c2 :
    (∀ current : Observation, hasChanged current none = true) ∧
    ∀ (current : Observation) (addresses : List String)
      (deliver : String → Option String), addresses ≠ [] →
      (evaluate none current addresses deliver).notified = true := by
  constructor
  · intro current
    rfl
  · intro current addresses deliver h
    cases addresses with
    | nil => exact absurd rfl h
    | cons a as => simp [evaluate, hasChanged, send_notifications]

/-- Witness for C2 at the spec scenario observation with one recipient. -/
theorem camply_c2_witness :
    (evaluate none obsScenario1 ["first@example.com"] deliverAllOk).notified = true :=
  camply_c2.2 obsScenario1 ["first@example.com"] deliverAllOk (by decide)

/-- C3: a send over an empty recipient set fails fast with the dedicated
configuration error and never resolves to a successful summary, so it
issues zero delivery outcomes. -/
theorem camply_c3 : ∀ deliver : String → Option String,
    send_notifications [] deliver =
      Except.error ConfigurationError.emptyRecipientSet ∧
    ∀ summary : DispatchSummary,
      send_notifications [] deliver ≠ Except.ok summary := by
  intro deliver
  refine ⟨rfl, ?_⟩
  intro summary h
  simp [send_notifications] at h

/-- C5: evaluating an observation against the cache entry stored for that
same observation on a previous run reports no change: the result is not
notified and carries no dispatch summary, independently of the stored
creation timestamp. -/
theorem camply_c5 : ∀ (eid created : String) (obs : Observation)
    (addresses : List String) (deliver : String → Option String),
    evaluate (some (store_results eid obs created)) obs addresses deliver =
      { notified := false, summary := none } := by
  intro eid created obs addresses deliver
  simp [evaluate, hasChanged, store_results]

lemma bool_not_eq_false {b : Bool} : ((!b) = false) ↔ b = true := by
  cases b <;> simp

lemma exists_of_filter_length_ne_zero {α : Type} (p : α → Bool) (l : List α)
    (h : (l.filter p).length ≠ 0) : ∃ a ∈ l, p a = true := by
  by_contra hc
  push_neg at hc
  apply h
  apply (filter_length_eq_zero_iff p l).mpr
  intro a ha
  cases hpa : p a
  · rfl
  · exact absurd hpa (hc a ha)

lemma summarize_all_succeeded_iff (l : List DeliveryOutcome) :
    (summarize l).status = DispatchStatus.all_succeeded ↔
      ∀ o ∈ l, o.success = true := by
  rw [summarize_status]
  by_cases hf : (l.filter (fun o => !o.success)).length = 0
  · rw [if_pos hf]
    have hall := (filter_length_eq_zero_iff _ l).mp hf
    simp only [bool_not_eq_false] at hall
    constructor
    · intro _
      exact hall
    · intro _
      rfl
  · rw [if_neg hf]
    constructor
    · intro h
      by_cases hs : (l.filter (fun o => o.success)).length = 0 <;> simp [hs] at h
    · intro h
      exact absurd ((filter_length_eq_zero_iff _ l).mpr
        (fun o ho => by simp [h o ho])) hf

lemma summarize_all_failed_iff (l : List DeliveryOutcome) (hne : l ≠ []) :
    (summarize l).status = DispatchStatus.all_failed ↔
      ∀ o ∈ l, o.success = false := by
  rw [summarize_status]
  by_cases hs : (l.filter (fun o => o.success)).length = 0
  · have hall := (filter_length_eq_zero_iff _ l).mp hs
    have hf : (l.filter (fun o => !o.success)).length ≠ 0 := by
      intro h0
      have hall2 := (filter_length_eq_zero_iff _ l).mp h0
      obtain ⟨o, ho⟩ := List.exists_mem_of_ne_nil l hne
      have e2 := hall2 o ho
      rw [hall o ho] at e2
      simp at e2
    rw [if_neg hf, if_pos hs]
    constructor
    · intro _
      exact hall
    · intro _
      rfl
  · constructor
    · intro h
      by_cases hf : (l.filter (fun o => !o.success)).length = 0 <;>
        simp [hf, hs] at h
    · intro h
      exact absurd ((filter_length_eq_zero_iff _ l).mpr h) hs

lemma summarize_partial_iff (l : List DeliveryOutcome) :
    (summarize l).status = DispatchStatus.partialDelivery ↔
      ((∃ o ∈ l, o.success = true) ∧ ∃ o ∈ l, o.success = false) := by
  rw [summarize_status]
  by_cases hf : (l.filter (fun o => !o.success)).length = 0
  · rw [if_pos hf]
    have hall := (filter_length_eq_zero_iff _ l).mp hf
    simp only [bool_not_eq_false] at hall
    constructor
    · intro h
      simp at h
    · rintro ⟨_, o, ho, hfalse⟩
      rw [hall o ho] at hfalse
      simp at hfalse
  · by_cases hs : (l.filter (fun o => o.success)).length = 0
    · rw [if_neg hf, if_pos hs]
      have hall := (filter_length_eq_zero_iff _ l).mp hs
      constructor
      · intro h
        simp at h
      · rintro ⟨⟨o, ho, htrue⟩, _⟩
        rw [hall o ho] at htrue
        simp at htrue
    · rw [if_neg hf, if_neg hs]
      constructor
      · intro _
        obtain ⟨o1, ho1, h1⟩ := exists_of_filter_length_ne_zero _ l hs
        obtain ⟨o2, ho2, h2⟩ := exists_of_filter_length_ne_zero _ l hf
        exact ⟨⟨o1, ho1, h1⟩, ⟨o2, ho2, by simpa using h2⟩⟩
      · intro _
        rfl

/-- C4: every recipient of a non-empty set yields exactly one delivery
outcome in order, with no early abort; in particular, with three recipients
of which exactly the second fails, the summary reports two successes, one
failure, the partial status, and the first and third recipients each
received exactly one attempt. -/
theorem camply_c4 :
    (∀ (addresses : List String) (deliver : String → Option String),
      addresses ≠ [] →
      ∃ summary, send_notifications addresses deliver = Except.ok summary ∧
        summary.outcomes.map DeliveryOutcome.recipient = addresses) ∧
    ∀ (deliver : String → Option String) (e : String),
      deliver "first@example.com" = none →
      deliver "second@example.com" = some e →
      deliver "third@example.com" = none →
      ∃ summary,
        send_notifications ["first@example.com", "second@example.com",
          "third@example.com"] deliver = Except.ok summary ∧
        summary.success_count = 2 ∧ summary.failure_count = 1 ∧
        summary.status = DispatchStatus.partialDelivery ∧
        (summary.outcomes.filter
          (fun o => o.recipient == "first@example.com")).length = 1 ∧
        (summary.outcomes.filter
          (fun o => o.recipient == "third@example.com")).length = 1 := by
  constructor
  · intro addresses deliver hne
    refine ⟨summarize (addresses.map (outcomeFor deliver)),
      send_notifications_ok _ _ hne, ?_⟩
    rw [summarize_outcomes, List.map_map]
    have hco : (DeliveryOutcome.recipient ∘ outcomeFor deliver) = id := by
      funext r
      exact outcomeFor_recipient deliver r
    rw [hco, List.map_id]
  · intro deliver e h1 h2 h3
    refine ⟨summarize (["first@example.com", "second@example.com",
      "third@example.com"].map (outcomeFor deliver)),
      send_notifications_ok _ _ (by simp), ?_⟩
    have e1 : outcomeFor deliver "first@example.com" =
        { recipient := "first@example.com", success := true, errorDetail := none } := by
      unfold outcomeFor
      rw [h1]
    have e2 : outcomeFor deliver "second@example.com" =
        { recipient := "second@example.com", success := false,
          errorDetail := some e } := by
      unfold outcomeFor
      rw [h2]
    have e3 : outcomeFor deliver "third@example.com" =
        { recipient := "third@example.com", success := true, errorDetail := none } := by
      unfold outcomeFor
      rw [h3]
    simp [summarize, e1, e2, e3]

/-- C8: for a non-empty recipient set, the dispatch summary's status is
all_failed exactly when every outcome failed, all_succeeded exactly when no
outcome failed, and partial in every other case. -/
theorem camply_c8 : ∀ (addresses : List String)
    (deliver : String → Option String) (summary : DispatchSummary),
    addresses ≠ [] →
    send_notifications addresses deliver = Except.ok summary →
    ((summary.status = DispatchStatus.all_failed ↔
        ∀ o ∈ summary.outcomes, o.success = false) ∧
      (summary.status = DispatchStatus.all_succeeded ↔
        ∀ o ∈ summary.outcomes, o.success = true) ∧
      (summary.status = DispatchStatus.partialDelivery ↔
        ((∃ o ∈ summary.outcomes, o.success = true) ∧
          ∃ o ∈ summary.outcomes, o.success = false))) := by
  intro addresses deliver summary hne hok
  rw [send_notifications_ok addresses deliver hne] at hok
  injection hok with hok
  subst hok
  have hne2 : addresses.map (outcomeFor deliver) ≠ [] := by
    simp [hne]
  rw [summarize_outcomes]
  exact ⟨summarize_all_failed_iff _ hne2, summarize_all_succeeded_iff _,
    summarize_partial_iff _⟩

/-- Witness for C4 at the concrete transport on which exactly the second
recipient fails. -/
theorem camply_c4_witness :
    ∃ summary,
      send_notifications ["first@example.com", "second@example.com",
        "third@example.com"] deliverSecondFails = Except.ok summary ∧
      summary.success_count = 2 ∧ summary.failure_count = 1 ∧
      summary.status = DispatchStatus.partialDelivery ∧
      (summary.outcomes.filter
        (fun o => o.recipient == "first@example.com")).length = 1 ∧
      (summary.outcomes.filter
        (fun o => o.recipient == "third@example.com")).length = 1 :=
  camply_c4.2 deliverSecondFails "smtp rejected" (by decide) (by decide) (by decide)

/-- Witness for C8: with three recipients of which exactly the second
fails, the status is partial. -/
theorem camply_c8_witness :
    (summarize (["first@example.com", "second@example.com",
        "third@example.com"].map (outcomeFor deliverSecondFails))).status =
      DispatchStatus.partialDelivery :=
  (camply_c8 ["first@example.com", "second@example.com", "third@example.com"]
      deliverSecondFails
      (summarize (["first@example.com", "second@example.com",
        "third@example.com"].map (outcomeFor deliverSecondFails)))
      (by decide)
      (send_notifications_ok _ _ (by decide))).2.2.mpr (by decide)

/-- C6: two observations whose canonicalized site records are permutations
of each other, whatever their timestamps and other metadata, have identical
fingerprints, and the comparator reports them unchanged whatever creation
timestamp the stored entry carries. -/
theorem camply_c6 : ∀ obs1 obs2 : Observation,
    (obs1.available_sites.map canonSite).Perm
      (obs2.available_sites.map canonSite) →
    result_hash obs1 = result_hash obs2 ∧
    ∀ eid created : String,
      hasChanged obs2 (some (store_results eid obs1 created)) = false := by
  intro obs1 obs2 hperm
  have hcan : ∀ s : SiteRecord, encodeSite (canonSite s) = encodeSite s := by
    intro s
    simp [encodeSite, canonSite, sortStrings_idem]
  have hp2 := hperm.map encodeSite
  rw [List.map_map, List.map_map] at hp2
  have hco : (encodeSite ∘ canonSite) = encodeSite := funext hcan
  rw [hco] at hp2
  have hrh : result_hash obs1 = result_hash obs2 := by
    unfold result_hash normalize_results
    rw [sortStrings_eq_of_perm hp2]
  refine ⟨hrh, ?_⟩
  intro eid created
  simp [hasChanged, store_results, hrh]

/-- Witness for C6 at the spec scenario: the same dates in reversed order
under a refreshed timestamp fingerprint identically and compare as
unchanged. -/
theorem camply_c6_witness :
    result_hash obsScenario1 = result_hash obsScenario2 ∧
    hasChanged obsScenario2
      (some (store_results "766" obsScenario1 "2025-01-08T10:30:05Z")) = false := by
  have happ := camply_c6 obsScenario1 obsScenario2 (by
    have h : obsScenario1.available_sites.map canonSite =
        obsScenario2.available_sites.map canonSite := by decide
    rw [h])
  exact ⟨happ.1, happ.2 "766" "2025-01-08T10:30:05Z"⟩

/-- C7: the retrieval path never surfaces an error: a missing key, a
connectivity failure, a permission failure and an undeserializable body all
resolve to absent, and an absent retrieval never blocks the downstream
comparison, which then notifies any non-empty recipient set. -/
theorem camply_c7 :
    retrieve_results S3GetResult.noSuchKey = none ∧
    retrieve_results S3GetResult.connectionError = none ∧
    retrieve_results S3GetResult.permissionError = none ∧
    (∀ body : String, parseCacheEntry body = none →
      retrieve_results (S3GetResult.ok body) = none) ∧
    ∀ (resp : S3GetResult) (current : Observation) (addresses : List String)
      (deliver : String → Option String), addresses ≠ [] →
      retrieve_results resp = none →
      (evaluate (retrieve_results resp) current addresses deliver).notified =
        true := by
  refine ⟨rfl, rfl, rfl, ?_, ?_⟩
  · intro body h
    simpa [retrieve_results] using h
  · intro resp current addresses deliver hne habs
    rw [habs]
    cases addresses with
    | nil => exact absurd rfl hne
    | cons a as => simp [evaluate, hasChanged, send_notifications]

/-- Witness for C7 at a body that fails to deserialize. -/
theorem camply_c7_witness :
    parseCacheEntry "garbage" = none ∧
    retrieve_results (S3GetResult.ok "garbage") = none ∧
    (evaluate (retrieve_results (S3GetResult.ok "garbage")) obsScenario1
      ["first@example.com"] deliverAllOk).notified = true := by
  have hp : parseCacheEntry "garbage" = none := by decide
  exact ⟨hp, camply_c7.2.2.2.1 "garbage" hp,
    camply_c7.2.2.2.2 (S3GetResult.ok "garbage") obsScenario1
      ["first@example.com"] deliverAllOk (by decide)
      (camply_c7.2.2.2.1 "garbage" hp)⟩

/-- C9: the cache bucket expires every object one day after creation, so an
entry stored more than one day before the next run is absent at retrieve
time, and the fail-open rule then re-notifies a non-empty recipient set even
for the unchanged observation: the at-most-one-notification-per-change
guarantee only holds within a one-day window. -/
theorem camply_c9 : ∀ (eid created : String) (obs : Observation)
    (addresses : List String) (deliver : String → Option String)
    (createdDay nowDay : Nat),
    createdDay + 1 ≤ nowDay → addresses ≠ [] →
    camplyCacheBucket.lifecycleRules = [{ expirationDays := 1 }] ∧
    retrieveAt camplyCacheBucket (store_results eid obs created)
      createdDay nowDay = none ∧
    (evaluate (retrieveAt camplyCacheBucket (store_results eid obs created)
      createdDay nowDay) obs addresses deliver).notified = true := by
  intro eid created obs addresses deliver c n hday hne
  have hlt : ¬ (n < c + 1) := by omega
  have hdead : retrieveAt camplyCacheBucket (store_results eid obs created)
      c n = none := by
    simp [retrieveAt, objectLive, camplyCacheBucket, hlt]
  refine ⟨rfl, hdead, ?_⟩
  rw [hdead]
  cases addresses with
  | nil => exact absurd rfl hne
  | cons a as => simp [evaluate, hasChanged, send_notifications]

/-- Witness for C9: an entry stored on day zero is absent on day one and
the unchanged observation is re-notified. -/
theorem camply_c9_witness :
    retrieveAt camplyCacheBucket
      (store_results "766" obsScenario1 "2025-01-08T10:30:00Z") 0 1 = none ∧
    (evaluate (retrieveAt camplyCacheBucket
      (store_results "766" obsScenario1 "2025-01-08T10:30:00Z") 0 1)
      obsScenario1 ["first@example.com"] deliverAllOk).notified = true := by
  have h := camply_c9 "766" "2025-01-08T10:30:00Z" obsScenario1
    ["first@example.com"] deliverAllOk 0 1 (by decide) (by decide)
  exact ⟨h.2.1, h.2.2⟩

/-- C10: the dashboard variant of the stack creates the cache bucket with
public read access enabled and all four block-public-access flags disabled,
its policy grants GetObject on dashboard.html to any principal, and
consequently every object key of the bucket, hence every persisted cache
entry, is world readable while it exists. -/
theorem camply_c10 :
    camplyDashboardCacheBucket.publicReadAccess = true ∧
    camplyDashboardCacheBucket.blockPublicAccess = some
      { blockPublicAcls := false, blockPublicPolicy := false,
        ignorePublicAcls := false, restrictPublicBuckets := false } ∧
    (∃ p ∈ dashboardBucketPolicy, p.allowEffect = true ∧ p.anyPrincipal = true ∧
      p.actions = ["s3:GetObject"] ∧
      p.resourceKeyPatterns = ["dashboard.html"]) ∧
    ∀ key : String,
      objectWorldReadable camplyDashboardCacheBucket dashboardBucketPolicy
        key = true := by
  refine ⟨rfl, rfl, ?_, ?_⟩
  · refine ⟨⟨true, true, ["s3:GetObject"], ["dashboard.html"]⟩,
      ?_, rfl, rfl, rfl, rfl⟩
    simp [dashboardBucketPolicy]
  · intro key
    simp [objectWorldReadable, camplyDashboardCacheBucket,
      dashboardBucketPolicy, keyMatches]
